import Mathlib

/-!
Shallow embedding of the k-geocode core (Go) in Lean 4.

Sources embedded:
- `src/internal/provider/errors.go` (error classifier)
- `src/unnamed/part_004` (`internal/utils` address text utilities)
- `src/internal/utils/math.go` (coordinate utilities; Go `float64` values are
  modelled as exact rationals `ℚ`)
- `src/internal/model/geocoding.go` (data model; `time` fields are omitted)
- `src/internal/provider/vworld.go` and `src/unnamed/part_006` (provider
  adapters; the outbound HTTP call is abstracted as an oracle function)
- `src/types.go` (`service.GeocodingService`: orchestrator and batch executor;
  the bounded-concurrency batch is modelled by its index-stable sequential
  semantics, each worker owning a disjoint result index)
- `src/client.go` (public `Client` wrappers)

Go's `(T, error)` returns are modelled with `Except`/`Option`; `nil` pointers
as `Option`; mutable provider state by explicit state passing.
-/

namespace KGeocode

/-! ## Error classifier (`internal/provider/errors.go`) -/

/-- `provider.ErrorType`: the closed enumeration of failure kinds. -/
inductive ErrorType where
  | NotFound
  | Invalid
  | SystemFailure
  | Timeout
  | RateLimitExceeded
  | Unauthorized
deriving DecidableEq, Repr

/-- `ErrorType.String()` from `errors.go`. -/
def ErrorType.goString : ErrorType → String
  | .NotFound => "NOT_FOUND"
  | .Invalid => "INVALID_INPUT"
  | .SystemFailure => "SYSTEM_FAILURE"
  | .Timeout => "TIMEOUT"
  | .RateLimitExceeded => "RATE_LIMIT_EXCEEDED"
  | .Unauthorized => "UNAUTHORIZED"

/-- `provider.ClassifiedError`. The wrapped `Original error` is modelled by the
message it would print (`none` for a `nil` cause). The Go field `Type` is
renamed `etype` (`Type` is reserved in Lean). -/
structure ClassifiedError where
  etype : ErrorType
  Message : String
  Original : Option String
  Retriable : Bool
  Fallback : Bool
deriving DecidableEq, Repr

/-- `ClassifiedError.Error()`: `fmt.Sprintf("[%s] %s: %v", type, msg, orig)`;
`%v` of a nil error prints `<nil>`. -/
def ClassifiedError.errorString (ce : ClassifiedError) : String :=
  "[" ++ ce.etype.goString ++ "] " ++ ce.Message ++ ": " ++ ce.Original.getD "<nil>"

/-- `provider.NewClassifiedError`: the switch sets the retry/fallback flags from
the kind; the two flags start from Go's zero value `false`. -/
def NewClassifiedError (etype : ErrorType) (message : String) (original : Option String) :
    ClassifiedError :=
  let ce : ClassifiedError :=
    { etype := etype, Message := message, Original := original,
      Retriable := false, Fallback := false }
  match etype with
  | .NotFound | .SystemFailure | .Timeout | .RateLimitExceeded =>
      { ce with Retriable := true, Fallback := true }
  | .Invalid | .Unauthorized => ce

/-- A Go `error` value as seen by the orchestrator: either a
`*ClassifiedError` or some other (unclassified) error, modelled by its
message. -/
inductive GoError where
  | classified (ce : ClassifiedError)
  | unclassified (msg : String)
deriving DecidableEq, Repr

/-- `err.Error()` for a `GoError`. -/
def GoError.errorString : GoError → String
  | .classified ce => ce.errorString
  | .unclassified msg => msg

/-- `provider.IsClassifiedError`: the `(ce, ok)` pair becomes an `Option`. -/
def IsClassifiedError : GoError → Option ClassifiedError
  | .classified ce => some ce
  | .unclassified _ => none

/-- `provider.ErrAddressNotFound.Error()`. -/
def ErrAddressNotFound : String := "address not found"

/-- `provider.ErrInvalidAddress.Error()`. -/
def ErrInvalidAddress : String := "invalid address format"

/-- `provider.ErrAPIKeyInvalid.Error()`. -/
def ErrAPIKeyInvalid : String := "API key is invalid or expired"

/-- `provider.ErrQuotaExceeded.Error()`. -/
def ErrQuotaExceeded : String := "daily quota exceeded"

/-! ## Address text utilities (`internal/utils`, src/unnamed/part_004) -/

/-- The single-rune replacements of `normalizeSpecialChars` (full-width
punctuation and the ideographic space to ASCII). -/
def replaceSpecialChar (c : Char) : Char :=
  if c = '（' then '(' else
  if c = '）' then ')' else
  if c = '－' then '-' else
  if c = '～' then '~' else
  if c = '，' then ',' else
  if c = '．' then '.' else
  if c = '：' then ':' else
  if c = '；' then ';' else
  if c = '　' then ' ' else c

/-- Go `unicode.IsSpace` (the Unicode White_Space property plus the Latin-1
cases Go lists explicitly). -/
def goIsSpace (c : Char) : Bool :=
  c = '\t' || c = '\n' || c = '\x0b' || c = '\x0c' || c = '\r' || c = ' ' ||
  c.val = 0x85 || c.val = 0xA0 || c.val = 0x1680 ||
  (0x2000 ≤ c.val && c.val ≤ 0x200A) ||
  c.val = 0x2028 || c.val = 0x2029 || c.val = 0x202F || c.val = 0x205F ||
  c.val = 0x3000

/-- Go `strings.TrimSpace` on a rune list. -/
def trimSpace (cs : List Char) : List Char :=
  ((cs.dropWhile goIsSpace).reverse.dropWhile goIsSpace).reverse

/-- The character class of Go's regexp `\s` (RE2: `[\t\n\f\r ]`, ASCII only). -/
def regexSpace (c : Char) : Bool :=
  c = '\t' || c = '\n' || c = '\x0c' || c = '\r' || c = ' '

/-- Replacing every maximal run matched by the regexp `\s+` with a single
ASCII space. The boolean argument records whether the previous character was
part of such a run. -/
def collapseSpaces : Bool → List Char → List Char
  | _, [] => []
  | prevSpace, c :: rest =>
    if regexSpace c then
      if prevSpace then collapseSpaces true rest
      else ' ' :: collapseSpaces true rest
    else c :: collapseSpaces false rest

/-- `utils.NormalizeAddress`: special-character replacement, `TrimSpace`, then
collapse of `\s+` runs to a single space. -/
def NormalizeAddress (address : String) : String :=
  ⟨collapseSpaces false (trimSpace (address.data.map replaceSpecialChar))⟩

/-- Go `unicode.Is(unicode.Hangul, r)`: the Hangul script ranges of Go's
`unicode` tables. -/
def isHangul (c : Char) : Bool :=
  (0x1100 ≤ c.val && c.val ≤ 0x11FF) ||
  (0x302E ≤ c.val && c.val ≤ 0x302F) ||
  (0x3131 ≤ c.val && c.val ≤ 0x318E) ||
  (0x3200 ≤ c.val && c.val ≤ 0x321E) ||
  (0x3260 ≤ c.val && c.val ≤ 0x327E) ||
  (0xA960 ≤ c.val && c.val ≤ 0xA97C) ||
  (0xAC00 ≤ c.val && c.val ≤ 0xD7A3) ||
  (0xD7B0 ≤ c.val && c.val ≤ 0xD7C6) ||
  (0xD7CB ≤ c.val && c.val ≤ 0xD7FB) ||
  (0xFFA0 ≤ c.val && c.val ≤ 0xFFBE) ||
  (0xFFC2 ≤ c.val && c.val ≤ 0xFFC7) ||
  (0xFFCA ≤ c.val && c.val ≤ 0xFFCF) ||
  (0xFFD2 ≤ c.val && c.val ≤ 0xFFD7) ||
  (0xFFDA ≤ c.val && c.val ≤ 0xFFDC)

/-- `utils.IsValidAddress`: non-blank, at least 2 runes, and at least one
Hangul rune. -/
def IsValidAddress (address : String) : Bool :=
  if trimSpace address.data = [] then false
  else if address.data.length < 2 then false
  else address.data.any isHangul

/-! ## Coordinate utilities (`internal/utils/math.go`), over `ℚ` -/

/-- Go `math.Round`: round half away from zero, as an integer result. -/
def goRound (x : ℚ) : ℤ :=
  if x < 0 then -⌊-x + 1 / 2⌋ else ⌊x + 1 / 2⌋

/-- `utils.RoundToSixDecimal`: `math.Round(val*1000000) / 1000000`. -/
def RoundToSixDecimal (val : ℚ) : ℚ :=
  (goRound (val * 1000000) : ℚ) / 1000000

/-- `utils.ValidateCoordinate`: WGS84 range check, inclusive. -/
def ValidateCoordinate (latitude longitude : ℚ) : Bool :=
  decide (-90 ≤ latitude) && decide (latitude ≤ 90) &&
  decide (-180 ≤ longitude) && decide (longitude ≤ 180)

/-- `utils.IsValidKoreanCoordinate`: approximate Korea bounding box. -/
def IsValidKoreanCoordinate (latitude longitude : ℚ) : Bool :=
  decide ((33 : ℚ) ≤ latitude) && decide (latitude ≤ 43) &&
  decide ((124 : ℚ) ≤ longitude) && decide (longitude ≤ 132)

/-! ## Data model (`internal/model/geocoding.go`) -/

/-- `model.Coordinate`. -/
structure Coordinate where
  Latitude : ℚ
  Longitude : ℚ
deriving DecidableEq, Repr

/-- `model.AddressDetail`. -/
structure AddressDetail where
  RoadAddress : String
  ParcelAddress : String
  Zipcode : String
  BuildingName : String
deriving DecidableEq, Repr

/-- `model.ProviderAttempt`. -/
structure ProviderAttempt where
  Provider : String
  Success : Bool
  Error : String
deriving DecidableEq, Repr

/-- `model.ProviderResult`; the `Error error` field is modelled by its
message. -/
structure ProviderResult where
  Coordinate : Coordinate
  AddressDetail : AddressDetail
  Success : Bool
  Error : Option String
deriving DecidableEq, Repr

/-- `model.GeocodingResponse`; the two `time` fields are omitted, pointers
become `Option`. -/
structure GeocodingResponse where
  Success : Bool
  Coordinate : Option Coordinate
  AddressDetail : Option AddressDetail
  Provider : String
  Attempts : List ProviderAttempt
  Error : String
deriving DecidableEq, Repr

/-- The anonymous `Summary` struct of `model.BulkResponse`. -/
structure Summary where
  Total : Nat
  Success : Nat
  Failed : Nat
deriving DecidableEq, Repr

/-- `model.BulkResponse` (`ProcessingTime` omitted). -/
structure BulkResponse where
  Results : List GeocodingResponse
  Summary : Summary
deriving DecidableEq, Repr

/-! ## Provider adapters (`provider.GeocodingProvider` interface) -/

/-- One `provider.GeocodingProvider` interface value together with the mutable
state it owns.  `respond` abstracts the provider's `Geocode` /
`GeocodeWithType` bodies (the outbound HTTP exchange) as a pure oracle from
`(address, addressType)` to the Go return pair `(*ProviderResult, error)`;
`Geocode(addr)` is `respond addr ""`.  `availViaFlag = true` gives the
`!disabled` baseline of `vworld.go` (`availBase && !disabled` for the test
mocks); `availViaFlag = false` gives the Kakao adapter's `IsAvailable`, which
returns `true` unconditionally (src/unnamed/part_006).  `typed` is true
exactly for the `*VWorldProvider` concrete type, which the orchestrator
detects by a type assertion. -/
structure GeocodingProvider where
  name : String
  availBase : Bool
  availViaFlag : Bool
  disabled : Bool
  disableReason : String
  typed : Bool
  respond : String → String → Except GoError (Option ProviderResult)

/-- `IsAvailable(ctx)`: `!disabled` for vWorld (`vworld.go`), `available &&
!disabled` for the test mocks, constantly `true` for Kakao. -/
def IsAvailable (p : GeocodingProvider) : Bool :=
  if p.availViaFlag then p.availBase && !p.disabled else true

/-- `Disable(reason)`: sets the permanent disable flag and its reason. This is
`vworld.go`'s implementation; the mock providers in the tests behave
identically. For the Kakao adapter the implementation is not under `src/`
(only the interface declaration and the orchestrator caller are); it is
modelled from the spec: the flag flips to disabled permanently, with no
re-enable path. -/
def Disable (p : GeocodingProvider) (reason : String) : GeocodingProvider :=
  { p with disabled := true, disableReason := reason }

/-- `IsDisabled()`. -/
def IsDisabled (p : GeocodingProvider) : Bool := p.disabled

/-- A fresh `*VWorldProvider` (`NewVWorldProvider`): availability is
`!disabled`, and the orchestrator's type assertion on it succeeds. -/
def mkVWorldProvider (respond : String → String → Except GoError (Option ProviderResult)) :
    GeocodingProvider :=
  { name := "vWorld", availBase := true, availViaFlag := true, disabled := false,
    disableReason := "", typed := true, respond := respond }

/-- A fresh `*KakaoProvider` (`NewKakaoProvider`): `IsAvailable` returns `true`
unconditionally (src/unnamed/part_006), and the type assertion to
`*VWorldProvider` fails. -/
def mkKakaoProvider (respond : String → String → Except GoError (Option ProviderResult)) :
    GeocodingProvider :=
  { name := "Kakao", availBase := true, availViaFlag := false, disabled := false,
    disableReason := "", typed := false, respond := respond }

/-! ## The vWorld typed-call fallback (`vworld.go` `GeocodeWithType`) -/

/-- Go `strings.ToUpper`, restricted to ASCII letters (the full Unicode case
mapping coincides with this on every string compared against `"ROAD"` /
`"PARCEL"` here). -/
def toUpperGo (s : String) : String :=
  ⟨s.data.map fun c => if 'a' ≤ c && c ≤ 'z' then Char.ofNat (c.toNat - 32) else c⟩

/-- The `ProviderResult` literal `{Success: false, Error: ErrAddressNotFound}`
(Go zero values elsewhere). -/
def notFoundResult : ProviderResult :=
  { Coordinate := ⟨0, 0⟩, AddressDetail := ⟨"", "", "", ""⟩,
    Success := false, Error := some ErrAddressNotFound }

/-- The `ProviderResult` literal `{Success: false, Error: ErrInvalidAddress}`. -/
def invalidAddressResult : ProviderResult :=
  { Coordinate := ⟨0, 0⟩, AddressDetail := ⟨"", "", "", ""⟩,
    Success := false, Error := some ErrInvalidAddress }

/-- `VWorldProvider.GeocodeWithType`: trims the address, uppercases the type;
a specific `ROAD`/`PARCEL` type is forwarded as-is; otherwise ROAD is tried
first and, if it did not succeed, PARCEL; when both fail the PARCEL error (if
any) or a not-found result is returned.  `call` abstracts the lower-case
`geocodeWithType` HTTP exchange. -/
def VWorldGeocodeWithType (call : String → String → Except GoError ProviderResult)
    (address addrType : String) : Except GoError ProviderResult :=
  let address : String := ⟨trimSpace address.data⟩
  if address = "" then .ok invalidAddressResult
  else
    let addrType := toUpperGo addrType
    if addrType = "ROAD" || addrType = "PARCEL" then call address addrType
    else
      match call address "ROAD" with
      | .ok r =>
        if r.Success then .ok r
        else
          match call address "PARCEL" with
          | .ok r2 => if r2.Success then .ok r2 else .ok notFoundResult
          | .error e2 => .error e2
      | .error _ =>
        match call address "PARCEL" with
        | .ok r2 => if r2.Success then .ok r2 else .ok notFoundResult
        | .error e2 => .error e2

/-! ## Fallback orchestrator (`service.GeocodingService` in `src/types.go`) -/

/-- The provider invocation of `Geocode` step 2b: the type-aware call when the
provider is a `*VWorldProvider` and a type hint was given, the plain
`Geocode` call otherwise. -/
def providerCall (p : GeocodingProvider) (address addressType : String) :
    Except GoError (Option ProviderResult) :=
  if p.typed && addressType ≠ "" then p.respond address addressType
  else p.respond address ""

/-- `GeocodingService.normalizeResponse`: round both coordinates to six
decimals, fail with `"invalid coordinates"` when out of WGS84 range (the
Korea-box check only logs a warning). -/
def normalizeResponse (result : ProviderResult) (providerName : String) : GeocodingResponse :=
  let lat := RoundToSixDecimal result.Coordinate.Latitude
  let lon := RoundToSixDecimal result.Coordinate.Longitude
  if !ValidateCoordinate lat lon then
    { Success := false, Coordinate := none, AddressDetail := none,
      Provider := providerName, Attempts := [], Error := "invalid coordinates" }
  else
    { Success := true, Coordinate := some ⟨lat, lon⟩,
      AddressDetail := some result.AddressDetail, Provider := providerName,
      Attempts := [], Error := "" }

/-- The terminal all-providers-exhausted response of `Geocode` step 4. -/
def allFailedResponse (attempts : List ProviderAttempt) : GeocodingResponse :=
  { Success := false, Coordinate := none, AddressDetail := none,
    Provider := "none", Attempts := attempts,
    Error := "all providers failed to geocode the address" }

/-- The provider loop of `GeocodingService.Geocode` (step 2): walks the
priority-ordered provider list, accumulating the attempt trail and threading
the providers' mutable disable flags; returns the response together with the
updated provider states. -/
def geocodeLoop (address addressType : String) :
    List GeocodingProvider → List ProviderAttempt →
    GeocodingResponse × List GeocodingProvider
  | [], attempts => (allFailedResponse attempts, [])
  | p :: rest, attempts =>
    if !IsAvailable p then
      let next := geocodeLoop address addressType rest
        (attempts ++ [⟨p.name, false, "provider not available"⟩])
      (next.1, p :: next.2)
    else
      match providerCall p address addressType with
      | .error e =>
        match IsClassifiedError e with
        | some ce =>
          let attempts2 := attempts ++ [⟨p.name, false, e.errorString⟩]
          if ce.etype = ErrorType.Unauthorized then
            let p2 := Disable p ("Authentication failed: " ++ e.errorString)
            let next := geocodeLoop address addressType rest attempts2
            (next.1, p2 :: next.2)
          else if ce.etype = ErrorType.RateLimitExceeded then
            let p2 := Disable p ("Rate limit exceeded: " ++ e.errorString)
            let next := geocodeLoop address addressType rest attempts2
            (next.1, p2 :: next.2)
          else if !ce.Fallback then
            ({ Success := false, Coordinate := none, AddressDetail := none,
               Provider := p.name, Attempts := attempts2, Error := e.errorString },
             p :: rest)
          else
            let next := geocodeLoop address addressType rest attempts2
            (next.1, p :: next.2)
        | none =>
          let next := geocodeLoop address addressType rest
            (attempts ++ [⟨p.name, false, e.errorString⟩])
          (next.1, p :: next.2)
      | .ok resOpt =>
        match resOpt with
        | some result =>
          if result.Success then
            let attempts2 := attempts ++ [⟨p.name, true, ""⟩]
            ({ normalizeResponse result p.name with Attempts := attempts2 }, p :: rest)
          else
            let next := geocodeLoop address addressType rest
              (attempts ++ [⟨p.name, false, "address not found"⟩])
            (next.1, p :: next.2)
        | none =>
          let next := geocodeLoop address addressType rest
            (attempts ++ [⟨p.name, false, "address not found"⟩])
          (next.1, p :: next.2)

/-- The pre-flight failure response of `Geocode` step 1 (Go zero values for
the unset fields). -/
def invalidFormatResponse : GeocodingResponse :=
  { Success := false, Coordinate := none, AddressDetail := none,
    Provider := "", Attempts := [], Error := "invalid address format" }

/-- `GeocodingService.Geocode`: normalize and validate, then run the provider
loop.  The second component of the inner pair is the Go `error` return (every
source return site returns `nil`, hence `none`); the outer second component is
the updated provider-state list. -/
def Geocode (providers : List GeocodingProvider) (address addressType : String) :
    (GeocodingResponse × Option String) × List GeocodingProvider :=
  let address := NormalizeAddress address
  if !IsValidAddress address then
    ((invalidFormatResponse, none), providers)
  else
    let r := geocodeLoop address addressType providers []
    ((r.1, none), r.2)

/-! ## Batch executor (`GeocodingService.GeocodeBatch`) -/

/-- The per-address work of `GeocodeBatch`, in input-index order (each
concurrent worker owns a disjoint result index, so the result list is
index-stable; the shared provider disable flags are threaded through).  The
`error` branch of the worker body is translated faithfully although `Geocode`
never returns a non-nil error. -/
def batchRun : List GeocodingProvider → List String →
    List GeocodingResponse × List GeocodingProvider
  | ps, [] => ([], ps)
  | ps, addr :: rest =>
    let r := Geocode ps addr ""
    let res : GeocodingResponse :=
      match r.1.2 with
      | some msg =>
        { Success := false, Coordinate := none, AddressDetail := none,
          Provider := "", Attempts := [], Error := msg }
      | none => r.1.1
    let next := batchRun r.2 rest
    (res :: next.1, next.2)

/-- `GeocodingService.GeocodeBatch`: empty input short-circuits to an empty
result list; otherwise every address is geocoded (type hint fixed to `""`),
results are written to their input index, and the summary is computed by
scanning the result list for `Success`. -/
def GeocodeBatch (providers : List GeocodingProvider) (addresses : List String) :
    (BulkResponse × Option String) × List GeocodingProvider :=
  if addresses.length = 0 then
    (({ Results := [], Summary := ⟨0, 0, 0⟩ }, none), providers)
  else
    let run := batchRun providers addresses
    let successCount := run.1.countP (·.Success)
    (({ Results := run.1,
        Summary := ⟨addresses.length, successCount, addresses.length - successCount⟩ },
      none), run.2)

/-! ## Public client (`src/client.go`) -/

/-- The public `geocoding.Attempt`. -/
structure Attempt where
  Provider : String
  Success : Bool
  Error : String
deriving DecidableEq, Repr

/-- The public `geocoding.Result`. -/
structure Result where
  Latitude : ℚ
  Longitude : ℚ
  Provider : String
  AddressDetail : Option AddressDetail
  Attempts : List Attempt
deriving DecidableEq, Repr

/-- The success-path conversion of `Client.GeocodeWithType`.  Go dereferences
the `Coordinate` pointer, which is always non-nil when `Success` is true;
`getD` supplies that always-present value. -/
def toClientResult (resp : GeocodingResponse) : Result :=
  { Latitude := (resp.Coordinate.getD ⟨0, 0⟩).Latitude,
    Longitude := (resp.Coordinate.getD ⟨0, 0⟩).Longitude,
    Provider := resp.Provider,
    AddressDetail := resp.AddressDetail,
    Attempts := resp.Attempts.map fun a => ⟨a.Provider, a.Success, a.Error⟩ }

/-- `Client.GeocodeWithType`: forwards to the service and converts a failed
outcome into a non-nil top-level error `"geocoding failed: ..."`. -/
def clientGeocodeWithType (providers : List GeocodingProvider)
    (address addressType : String) : Except String Result × List GeocodingProvider :=
  let r := Geocode providers address addressType
  match r.1.2 with
  | some e => (.error e, r.2)
  | none =>
    if !r.1.1.Success then (.error ("geocoding failed: " ++ r.1.1.Error), r.2)
    else (.ok (toClientResult r.1.1), r.2)

/-- `Client.Geocode`: `GeocodeWithType` with the empty type hint. -/
def clientGeocode (providers : List GeocodingProvider) (address : String) :
    Except String Result × List GeocodingProvider :=
  clientGeocodeWithType providers address ""

/-- The per-result conversion of `Client.GeocodeBatch`: a failed outcome
becomes `none`; a success becomes a `Result` carrying coordinate, provider and
address detail (attempts are not copied there). -/
def toClientBatchEntry (resp : GeocodingResponse) : Option Result :=
  if !resp.Success then none
  else some
    { Latitude := (resp.Coordinate.getD ⟨0, 0⟩).Latitude,
      Longitude := (resp.Coordinate.getD ⟨0, 0⟩).Longitude,
      Provider := resp.Provider,
      AddressDetail := resp.AddressDetail,
      Attempts := [] }

/-- `Client.GeocodeBatch`: empty input yields `[]`; more than 100 addresses is
the caller-contract violation returning a non-nil error; otherwise the bulk
results are converted entrywise. -/
def clientGeocodeBatch (providers : List GeocodingProvider) (addresses : List String) :
    Except String (List (Option Result)) × List GeocodingProvider :=
  if addresses.length = 0 then (.ok [], providers)
  else if 100 < addresses.length then
    (.error ("too many addresses: maximum 100, got " ++ toString addresses.length), providers)
  else
    let r := GeocodeBatch providers addresses
    match r.1.2 with
    | some e => (.error e, r.2)
    | none => (.ok (r.1.1.Results.map toClientBatchEntry), r.2)

/-! ## Concrete fixtures (mirroring the repository's test mocks) -/

/-- `List.getD` default used when indexing provider lists. -/
def dummyProvider : GeocodingProvider :=
  { name := "", availBase := false, availViaFlag := true, disabled := false,
    disableReason := "", typed := false, respond := fun _ _ => .ok none }

/-- A successful `ProviderResult` like the service tests' mock payload
(lat 37.5665, lon 126.978). -/
def okProviderResult : ProviderResult :=
  { Coordinate := ⟨375665 / 10000, 126978 / 1000⟩,
    AddressDetail := ⟨"", "", "", ""⟩, Success := true, Error := none }

/-- A `Success=false` `ProviderResult` (provider found no match). -/
def noMatchProviderResult : ProviderResult :=
  { Coordinate := ⟨0, 0⟩, AddressDetail := ⟨"", "", "", ""⟩,
    Success := false, Error := none }

/-- Mock provider that always succeeds (the tests' `SuccessProvider`). -/
def mockSuccessProvider : GeocodingProvider :=
  { name := "SuccessProvider", availBase := true, availViaFlag := true,
    disabled := false, disableReason := "", typed := false,
    respond := fun _ _ => .ok (some okProviderResult) }

/-- Mock provider that always returns `Success=false` (the tests'
`FailingProvider`). -/
def mockNotFoundProvider : GeocodingProvider :=
  { name := "FailingProvider", availBase := true, availViaFlag := true,
    disabled := false, disableReason := "", typed := false,
    respond := fun _ _ => .ok (some noMatchProviderResult) }

/-- Mock provider returning a classified `Invalid` error. -/
def mockInvalidProvider : GeocodingProvider :=
  { name := "MockProvider", availBase := true, availViaFlag := true,
    disabled := false, disableReason := "", typed := false,
    respond := fun _ _ =>
      .error (.classified (NewClassifiedError .Invalid "invalid input" none)) }

/-- Mock provider returning a classified `Unauthorized` error. -/
def mockUnauthorizedProvider : GeocodingProvider :=
  { name := "MockProvider", availBase := true, availViaFlag := true,
    disabled := false, disableReason := "", typed := false,
    respond := fun _ _ =>
      .error (.classified (NewClassifiedError .Unauthorized "auth failed" none)) }

/-- Mock provider whose base availability is off (the tests'
`available: false`). -/
def mockUnavailableProvider : GeocodingProvider :=
  { name := "UnavailableProvider", availBase := false, availViaFlag := true,
    disabled := false, disableReason := "", typed := false,
    respond := fun _ _ => .ok (some okProviderResult) }

/-- A Kakao adapter whose API key is rejected: every call yields the
classified `Unauthorized` error built in `src/unnamed/part_006`
(`NewClassifiedError(ErrorTypeUnauthorized, "Invalid API key", ErrAPIKeyInvalid)`). -/
def kakaoUnauthorizedProvider : GeocodingProvider :=
  mkKakaoProvider fun _ _ =>
    .error (.classified (NewClassifiedError .Unauthorized "Invalid API key"
      (some ErrAPIKeyInvalid)))

/-- Whether a `(*ProviderResult, error)` pair counts as a success in the
vWorld ROAD→PARCEL fallback (`err == nil && result.Success`). -/
def callSucceeded : Except GoError ProviderResult → Bool
  | .ok r => r.Success
  | .error _ => false

/-- vWorld low-level oracle: the ROAD form fails with a classified
`SystemFailure`, the PARCEL form answers cleanly with no match. -/
def vworldRoadErrOracle : String → String → Except GoError ProviderResult :=
  fun _ addrType =>
    if addrType = "ROAD" then
      .error (.classified (NewClassifiedError .SystemFailure "HTTP request failed"
        (some "connection refused")))
    else .ok noMatchProviderResult

/-- vWorld low-level oracle that succeeds on every call. -/
def vworldOkOracle : String → String → Except GoError ProviderResult :=
  fun _ _ => .ok okProviderResult

/-- vWorld low-level oracle: no match for the ROAD form, success for the
PARCEL form. -/
def vworldParcelOkOracle : String → String → Except GoError ProviderResult :=
  fun _ addrType =>
    if addrType = "PARCEL" then .ok okProviderResult else .ok noMatchProviderResult

/-- A `*VWorldProvider` whose HTTP exchange is the given low-level oracle: its
interface-level `Geocode`/`GeocodeWithType` is `VWorldGeocodeWithType` (which
never returns a nil result together with a nil error). -/
def vworldProviderOf (call : String → String → Except GoError ProviderResult) :
    GeocodingProvider :=
  mkVWorldProvider fun a t => (VWorldGeocodeWithType call a t).map some

/-! ## Helper lemmas -/

theorem goRound_intCast (n : ℤ) : goRound (n : ℚ) = n := by
  unfold goRound
  split
  · have h : (-(n : ℚ) + 1 / 2) = (1 / 2 + ((-n : ℤ) : ℚ)) := by push_cast; ring
    rw [h, Int.floor_add_int]
    norm_num
  · have h : ((n : ℚ) + 1 / 2) = (1 / 2 + (n : ℚ)) := by ring
    rw [h, Int.floor_add_int]
    norm_num

theorem geocode_err_none (ps : List GeocodingProvider) (address addressType : String) :
    (Geocode ps address addressType).1.2 = none := by
  cases h : IsValidAddress (NormalizeAddress address) <;> simp [Geocode, h]

theorem geocodeBatch_err_none (ps : List GeocodingProvider) (addrs : List String) :
    (GeocodeBatch ps addrs).1.2 = none := by
  by_cases h : addrs.length = 0 <;> simp [GeocodeBatch, h]

theorem geocodeLoop_skips_unavailable (address addressType : String)
    (pre : List GeocodingProvider) :
    ∀ (others : List GeocodingProvider) (attempts : List ProviderAttempt),
      pre.all (fun q => !IsAvailable q) = true →
      geocodeLoop address addressType (pre ++ others) attempts =
        ((geocodeLoop address addressType others
            (attempts ++ pre.map fun q => ⟨q.name, false, "provider not available"⟩)).1,
          pre ++ (geocodeLoop address addressType others
            (attempts ++ pre.map fun q => ⟨q.name, false, "provider not available"⟩)).2) := by
  induction pre with
  | nil => intro others attempts _; simp
  | cons q pre ih =>
    intro others attempts hall
    simp only [List.all_cons, Bool.and_eq_true] at hall
    obtain ⟨hq, hrest⟩ := hall
    have hq' : IsAvailable q = false := by simpa using hq
    simp only [List.cons_append, geocodeLoop, hq', Bool.not_false, if_true, List.append_eq]
    rw [ih others (attempts ++ [({ Provider := q.name, Success := false, Error := "provider not available" } : ProviderAttempt)]) hrest]
    simp

theorem geocodeLoop_invalid_head (p : GeocodingProvider) (rest : List GeocodingProvider)
    (address addressType message : String) (original : Option String)
    (attempts : List ProviderAttempt)
    (hp : IsAvailable p = true)
    (hcall : providerCall p address addressType =
      .error (.classified (NewClassifiedError .Invalid message original))) :
    geocodeLoop address addressType (p :: rest) attempts =
      ({ Success := false, Coordinate := none, AddressDetail := none,
         Provider := p.name,
         Attempts := attempts ++
           [⟨p.name, false,
             (GoError.classified (NewClassifiedError .Invalid message original)).errorString⟩],
         Error := (GoError.classified (NewClassifiedError .Invalid message original)).errorString },
        p :: rest) := by
  simp [geocodeLoop, hp, hcall, IsClassifiedError, NewClassifiedError]

theorem batchRun_length (addrs : List String) :
    ∀ ps : List GeocodingProvider, (batchRun ps addrs).1.length = addrs.length := by
  induction addrs with
  | nil => intro ps; rfl
  | cons a rest ih => intro ps; simp [batchRun, geocode_err_none, ih]

theorem batchRun_getD (addrs : List String) :
    ∀ (ps : List GeocodingProvider) (i : Nat), i < addrs.length →
      (batchRun ps addrs).1.getD i invalidFormatResponse =
        (Geocode (batchRun ps (addrs.take i)).2 (addrs.getD i "") "").1.1 := by
  induction addrs with
  | nil => intro ps i h; exact absurd h (by simp)
  | cons a rest ih =>
    intro ps i h
    cases i with
    | zero => simp [batchRun, geocode_err_none]
    | succ i =>
      simp only [batchRun, geocode_err_none, List.getD_cons_succ, List.take_succ_cons]
      exact ih (Geocode ps a "").2 i (by simpa using Nat.lt_of_succ_lt_succ h)

theorem geocodeLoop_providers_shape (address addressType : String) :
    ∀ (ps : List GeocodingProvider) (attempts : List ProviderAttempt),
      List.Forall₂ (fun p q => q = p ∨ ∃ r, q = Disable p r) ps
        (geocodeLoop address addressType ps attempts).2 := by
  intro ps
  induction ps with
  | nil => intro attempts; exact List.Forall₂.nil
  | cons p rest ih =>
    intro attempts
    simp only [geocodeLoop]
    split
    · exact List.Forall₂.cons (Or.inl rfl) (ih _)
    · split
      · split
        · split
          · exact List.Forall₂.cons (Or.inr ⟨_, rfl⟩) (ih _)
          · split
            · exact List.Forall₂.cons (Or.inr ⟨_, rfl⟩) (ih _)
            · split
              · exact List.Forall₂.cons (Or.inl rfl)
                  (List.forall₂_same.mpr fun x _ => Or.inl rfl)
              · exact List.Forall₂.cons (Or.inl rfl) (ih _)
        · exact List.Forall₂.cons (Or.inl rfl) (ih _)
      · split
        · split
          · exact List.Forall₂.cons (Or.inl rfl)
              (List.forall₂_same.mpr fun x _ => Or.inl rfl)
          · exact List.Forall₂.cons (Or.inl rfl) (ih _)
        · exact List.Forall₂.cons (Or.inl rfl) (ih _)

theorem forall₂_preserves_disabled :
    ∀ {l1 l2 : List GeocodingProvider},
      List.Forall₂ (fun p q => q = p ∨ ∃ r, q = Disable p r) l1 l2 →
      ∀ i : Nat, (l1.getD i dummyProvider).disabled = true →
        (l2.getD i dummyProvider).disabled = true := by
  intro l1 l2 h
  induction h with
  | nil => intro i hd; exact hd
  | cons hpq htl ih =>
    intro i hd
    cases i with
    | zero =>
      rcases hpq with rfl | ⟨r, rfl⟩
      · simpa using hd
      · simp [Disable]
    | succ i => simpa using ih i (by simpa using hd)

theorem VWorldGeocodeWithType_empty_type
    (call : String → String → Except GoError ProviderResult) (address : String)
    (h : trimSpace address.data ≠ []) :
    VWorldGeocodeWithType call address "" =
      (match call ⟨trimSpace address.data⟩ "ROAD" with
        | .ok r =>
          if r.Success then .ok r
          else
            match call ⟨trimSpace address.data⟩ "PARCEL" with
            | .ok r2 => if r2.Success then .ok r2 else .ok notFoundResult
            | .error e2 => .error e2
        | .error _ =>
          match call ⟨trimSpace address.data⟩ "PARCEL" with
          | .ok r2 => if r2.Success then .ok r2 else .ok notFoundResult
          | .error e2 => .error e2) := by
  have hne : ((⟨trimSpace address.data⟩ : String)) ≠ "" :=
    fun hh => h (congrArg String.data hh)
  simp only [VWorldGeocodeWithType, hne, if_false, Bool.or_eq_true, decide_eq_true_eq]
  rw [if_neg (by rintro (h' | h') <;> exact absurd h' (by decide))]

/-! ## Claim theorems -/

/-- C1: a provider whose attempt comes back as a classified `Invalid` failure
makes the orchestrator record that attempt and return immediately with
`success=false`, the error text and the attempts accumulated so far — later
providers are never invoked (the outcome does not depend on them and their
state is untouched), whatever attempt trail precedes the failing provider;
instantiated at `Geocode` with any run of unavailable providers ahead of it. -/
theorem geocode_invalid_error_stops (pre rest : List GeocodingProvider)
    (p : GeocodingProvider) (address addressType message : String)
    (original : Option String)
    (hpre : pre.all (fun q => !IsAvailable q) = true)
    (hp : IsAvailable p = true)
    (hvalid : IsValidAddress (NormalizeAddress address) = true)
    (hcall : providerCall p (NormalizeAddress address) addressType =
      .error (.classified (NewClassifiedError .Invalid message original))) :
    (∀ attempts : List ProviderAttempt,
      geocodeLoop (NormalizeAddress address) addressType (p :: rest) attempts =
        ({ Success := false, Coordinate := none, AddressDetail := none,
           Provider := p.name,
           Attempts := attempts ++
             [⟨p.name, false,
               (GoError.classified (NewClassifiedError .Invalid message original)).errorString⟩],
           Error := (GoError.classified (NewClassifiedError .Invalid message original)).errorString },
          p :: rest))
    ∧ Geocode (pre ++ p :: rest) address addressType =
      (({ Success := false, Coordinate := none, AddressDetail := none,
          Provider := p.name,
          Attempts := (pre.map fun q => ⟨q.name, false, "provider not available"⟩) ++
            [⟨p.name, false,
              (GoError.classified (NewClassifiedError .Invalid message original)).errorString⟩],
          Error := (GoError.classified (NewClassifiedError .Invalid message original)).errorString },
         none),
        pre ++ p :: rest) := by
  constructor
  · intro attempts
    exact geocodeLoop_invalid_head p rest (NormalizeAddress address) addressType message
      original attempts hp hcall
  · simp only [Geocode, hvalid, Bool.not_true]
    rw [if_neg (by simp)]
    rw [geocodeLoop_skips_unavailable (NormalizeAddress address) addressType pre (p :: rest) [] hpre]
    rw [geocodeLoop_invalid_head p rest (NormalizeAddress address) addressType message original _ hp hcall]
    simp

/-- Witness for C1: an unavailable provider, then one returning `Invalid`,
then a healthy provider that is never reached. -/
theorem geocode_invalid_error_stops_witness :
    Geocode ([mockUnavailableProvider] ++ mockInvalidProvider :: [mockSuccessProvider]) "서울시 중구" "" =
      (({ Success := false, Coordinate := none, AddressDetail := none,
          Provider := mockInvalidProvider.name,
          Attempts := ([mockUnavailableProvider].map fun q => ⟨q.name, false, "provider not available"⟩) ++
            [⟨mockInvalidProvider.name, false,
              (GoError.classified (NewClassifiedError .Invalid "invalid input" none)).errorString⟩],
          Error := (GoError.classified (NewClassifiedError .Invalid "invalid input" none)).errorString },
         none),
        [mockUnavailableProvider] ++ mockInvalidProvider :: [mockSuccessProvider]) :=
  (geocode_invalid_error_stops [mockUnavailableProvider] [mockSuccessProvider]
    mockInvalidProvider "서울시 중구" "" "invalid input" none (by decide) (by decide)
    (by decide) rfl).2

/-- C2: a classified `Unauthorized` or `RateLimitExceeded` failure makes the
loop record a failed attempt carrying the error text, permanently disable
that provider (`Disable` with an `"Authentication failed: ..."` /
`"Rate limit exceeded: ..."` reason), and continue with the remaining
providers instead of returning. -/
theorem geocode_disable_and_continue (p : GeocodingProvider)
    (rest : List GeocodingProvider) (address addressType message : String)
    (original : Option String) (attempts : List ProviderAttempt) (k : ErrorType)
    (hk : k = ErrorType.Unauthorized ∨ k = ErrorType.RateLimitExceeded)
    (hp : IsAvailable p = true)
    (hcall : providerCall p address addressType =
      .error (.classified (NewClassifiedError k message original))) :
    geocodeLoop address addressType (p :: rest) attempts =
      ((geocodeLoop address addressType rest (attempts ++
          [⟨p.name, false, (GoError.classified (NewClassifiedError k message original)).errorString⟩])).1,
        Disable p
            ((if k = ErrorType.Unauthorized then "Authentication failed: "
              else "Rate limit exceeded: ") ++
              (GoError.classified (NewClassifiedError k message original)).errorString) ::
          (geocodeLoop address addressType rest (attempts ++
            [⟨p.name, false, (GoError.classified (NewClassifiedError k message original)).errorString⟩])).2)
    ∧ (Disable p
          ((if k = ErrorType.Unauthorized then "Authentication failed: "
            else "Rate limit exceeded: ") ++
            (GoError.classified (NewClassifiedError k message original)).errorString)).disabled = true := by
  rcases hk with rfl | rfl <;>
    exact ⟨by simp [geocodeLoop, hp, hcall, IsClassifiedError, NewClassifiedError], rfl⟩

/-- Witness for C2: the `Unauthorized` mock ends up disabled with the
authentication-failure reason. -/
theorem geocode_disable_and_continue_witness :
    (Disable mockUnauthorizedProvider
        ("Authentication failed: " ++
          (GoError.classified (NewClassifiedError .Unauthorized "auth failed" none)).errorString)).disabled
      = true :=
  (geocode_disable_and_continue mockUnauthorizedProvider [mockSuccessProvider]
    "서울시 중구" "" "auth failed" none [] .Unauthorized (Or.inl rfl) rfl rfl).2

/-- C5: `GeocodeBatch` returns as many results as input addresses, never a
top-level error; the empty input short-circuits to an empty result list with
a zero summary and untouched providers; the result at index `i` is the
orchestration outcome of the address at index `i` (computed against the
provider state threaded through the earlier indices); and the summary
satisfies `Total = |input|`, `Success = #{success results}`,
`Failed = Total - Success`. -/
theorem geocodeBatch_spec (ps : List GeocodingProvider) (addrs : List String) :
    (GeocodeBatch ps addrs).1.1.Results.length = addrs.length
    ∧ (GeocodeBatch ps addrs).1.2 = none
    ∧ (addrs = [] →
        GeocodeBatch ps addrs = (({ Results := [], Summary := ⟨0, 0, 0⟩ }, none), ps))
    ∧ (∀ i, i < addrs.length →
        (GeocodeBatch ps addrs).1.1.Results.getD i invalidFormatResponse =
          (Geocode (batchRun ps (addrs.take i)).2 (addrs.getD i "") "").1.1)
    ∧ (GeocodeBatch ps addrs).1.1.Summary.Total = addrs.length
    ∧ (GeocodeBatch ps addrs).1.1.Summary.Success
        = (GeocodeBatch ps addrs).1.1.Results.countP (·.Success)
    ∧ (GeocodeBatch ps addrs).1.1.Summary.Failed
        = addrs.length - (GeocodeBatch ps addrs).1.1.Results.countP (·.Success) := by
  by_cases h : addrs.length = 0
  · have h0 : addrs = [] := List.length_eq_zero.mp h
    subst h0
    refine ⟨rfl, rfl, fun _ => rfl, ?_, rfl, rfl, rfl⟩
    intro i hi
    exact absurd hi (by simp)
  · refine ⟨?_, geocodeBatch_err_none ps addrs, ?_, ?_, ?_, ?_, ?_⟩
    · simp only [GeocodeBatch, if_neg h]
      exact batchRun_length addrs ps
    · intro he
      exact absurd (by simp [he]) h
    · intro i hi
      simp only [GeocodeBatch, if_neg h]
      exact batchRun_getD addrs ps i hi
    · simp only [GeocodeBatch, if_neg h]
    · simp only [GeocodeBatch, if_neg h]
    · simp only [GeocodeBatch, if_neg h]

/-- Witness for C5 at a concrete two-address batch (second address invalid):
the index-0 entry is the orchestration outcome of the first address. -/
theorem geocodeBatch_spec_witness :
    (GeocodeBatch [mockSuccessProvider] ["서울시 중구", "ab"]).1.1.Results.getD 0 invalidFormatResponse
      = (Geocode (batchRun [mockSuccessProvider] (["서울시 중구", "ab"].take 0)).2
          (["서울시 중구", "ab"].getD 0 "") "").1.1 :=
  (geocodeBatch_spec [mockSuccessProvider] ["서울시 중구", "ab"]).2.2.2.1 0 (by decide)

/-- C6 (amended): for the vWorld provider and the test mocks with base
availability on, `IsAvailable` is exactly `!disabled`; `Disable` sets the
permanent flag with its reason and nothing clears it — in particular a
provider disabled before an orchestration run is still disabled after it; the
Kakao adapter, however, reports `IsAvailable = true` unconditionally,
disabled or not. -/
theorem provider_availability_spec :
    (∀ p : GeocodingProvider, p.availViaFlag = true → p.availBase = true →
        IsAvailable p = !p.disabled)
    ∧ (∀ (p : GeocodingProvider) (reason : String),
        (Disable p reason).disabled = true ∧ IsDisabled (Disable p reason) = true
          ∧ (Disable p reason).disableReason = reason)
    ∧ (∀ (p : GeocodingProvider) (reason : String),
        p.disabled = true → (Disable p reason).disabled = true)
    ∧ (∀ (ps : List GeocodingProvider) (address addressType : String) (i : Nat),
        (ps.getD i dummyProvider).disabled = true →
        ((Geocode ps address addressType).2.getD i dummyProvider).disabled = true)
    ∧ (∀ p : GeocodingProvider, p.availViaFlag = false → IsAvailable p = true) := by
  refine ⟨?_, ?_, ?_, ?_, ?_⟩
  · intro p h1 h2
    simp [IsAvailable, h1, h2]
  · intro p r
    exact ⟨rfl, rfl, rfl⟩
  · intro p r _
    rfl
  · intro ps a t i hd
    cases hv : IsValidAddress (NormalizeAddress a) with
    | false => simpa [Geocode, hv] using hd
    | true =>
      simp only [Geocode, hv, Bool.not_true]
      rw [if_neg (by simp)]
      exact forall₂_preserves_disabled
        (geocodeLoop_providers_shape (NormalizeAddress a) t ps []) i hd
  · intro p h
    simp [IsAvailable, h]

/-- Witness for C6 (amended) at the concrete vWorld and Kakao fixtures. -/
theorem provider_availability_spec_witness :
    IsAvailable (vworldProviderOf vworldOkOracle)
        = !(vworldProviderOf vworldOkOracle).disabled
    ∧ IsAvailable kakaoUnauthorizedProvider = true :=
  ⟨provider_availability_spec.1 (vworldProviderOf vworldOkOracle) rfl rfl,
   provider_availability_spec.2.2.2.2 kakaoUnauthorizedProvider rfl⟩

/-- Counterexample to C6 as stated: after one orchestration run against a
Kakao adapter whose credential is rejected, the provider has been disabled
(`disabled = true`, `IsDisabled = true`) yet `IsAvailable` still reports
`true`, so `isAvailable` is not `!disabled` for every provider. -/
theorem kakao_available_although_disabled :
    ((Geocode [kakaoUnauthorizedProvider] "서울시 중구" "").2.map (fun p => p.disabled)) = [true]
    ∧ ((Geocode [kakaoUnauthorizedProvider] "서울시 중구" "").2.map IsDisabled) = [true]
    ∧ ((Geocode [kakaoUnauthorizedProvider] "서울시 중구" "").2.map IsAvailable) = [true] :=
  ⟨rfl, rfl, rfl⟩

/-- C8 (amended): for every address that is nonempty after trimming, the
empty-type call tries ROAD first and, if that attempt did not succeed,
PARCEL, returning the first successful result; if both fail it returns the
PARCEL attempt's error when that attempt erred, and otherwise a not-found
result — even when the ROAD attempt erred. -/
theorem vworld_auto_type_fallback
    (call : String → String → Except GoError ProviderResult) (address : String)
    (h : trimSpace address.data ≠ []) :
    (callSucceeded (call ⟨trimSpace address.data⟩ "ROAD") = true →
        VWorldGeocodeWithType call address "" = call ⟨trimSpace address.data⟩ "ROAD")
    ∧ (callSucceeded (call ⟨trimSpace address.data⟩ "ROAD") = false →
        callSucceeded (call ⟨trimSpace address.data⟩ "PARCEL") = true →
        VWorldGeocodeWithType call address "" = call ⟨trimSpace address.data⟩ "PARCEL")
    ∧ (callSucceeded (call ⟨trimSpace address.data⟩ "ROAD") = false →
        ∀ e, call ⟨trimSpace address.data⟩ "PARCEL" = .error e →
        VWorldGeocodeWithType call address "" = .error e)
    ∧ (callSucceeded (call ⟨trimSpace address.data⟩ "ROAD") = false →
        callSucceeded (call ⟨trimSpace address.data⟩ "PARCEL") = false →
        (call ⟨trimSpace address.data⟩ "PARCEL").isOk = true →
        VWorldGeocodeWithType call address "" = .ok notFoundResult) := by
  refine ⟨?_, ?_, ?_, ?_⟩
  · intro hroad
    rw [VWorldGeocodeWithType_empty_type call address h]
    cases hcr : call ⟨trimSpace address.data⟩ "ROAD" with
    | ok r =>
      have hs : r.Success = true := by simpa [callSucceeded, hcr] using hroad
      simp [hs]
    | error e =>
      rw [hcr] at hroad
      simp [callSucceeded] at hroad
  · intro hroad hparcel
    rw [VWorldGeocodeWithType_empty_type call address h]
    cases hcr : call ⟨trimSpace address.data⟩ "ROAD" with
    | ok r =>
      have hs : r.Success = false := by simpa [callSucceeded, hcr] using hroad
      cases hcp : call ⟨trimSpace address.data⟩ "PARCEL" with
      | ok r2 =>
        have hs2 : r2.Success = true := by simpa [callSucceeded, hcp] using hparcel
        simp [hs, hs2]
      | error e2 =>
        rw [hcp] at hparcel
        simp [callSucceeded] at hparcel
    | error e =>
      cases hcp : call ⟨trimSpace address.data⟩ "PARCEL" with
      | ok r2 =>
        have hs2 : r2.Success = true := by simpa [callSucceeded, hcp] using hparcel
        simp [hs2]
      | error e2 => rfl
  · intro hroad e2 hcp
    rw [VWorldGeocodeWithType_empty_type call address h]
    cases hcr : call ⟨trimSpace address.data⟩ "ROAD" with
    | ok r =>
      have hs : r.Success = false := by simpa [callSucceeded, hcr] using hroad
      simp [hs, hcp]
    | error e => simp [hcp]
  · intro hroad hparcel hok
    rw [VWorldGeocodeWithType_empty_type call address h]
    cases hcr : call ⟨trimSpace address.data⟩ "ROAD" with
    | ok r =>
      have hs : r.Success = false := by simpa [callSucceeded, hcr] using hroad
      cases hcp : call ⟨trimSpace address.data⟩ "PARCEL" with
      | ok r2 =>
        have hs2 : r2.Success = false := by simpa [callSucceeded, hcp] using hparcel
        simp [hs, hs2]
      | error e2 =>
        rw [hcp] at hok
        simp [Except.isOk, Except.toBool] at hok
    | error e =>
      cases hcp : call ⟨trimSpace address.data⟩ "PARCEL" with
      | ok r2 =>
        have hs2 : r2.Success = false := by simpa [callSucceeded, hcp] using hparcel
        simp [hs2]
      | error e2 =>
        rw [hcp] at hok
        simp [Except.isOk, Except.toBool] at hok

/-- Witness for C8 (amended): an oracle with no ROAD match but a PARCEL
success; the empty-type call returns the PARCEL result. -/
theorem vworld_auto_type_fallback_witness :
    VWorldGeocodeWithType vworldParcelOkOracle "서울" "" =
      vworldParcelOkOracle ⟨trimSpace "서울".data⟩ "PARCEL" :=
  (vworld_auto_type_fallback vworldParcelOkOracle "서울" (by decide)).2.1 rfl rfl

/-- Counterexample to C8 as stated: (i) when the ROAD attempt errs (a
classified `SystemFailure`) and the PARCEL attempt reports a clean no-match,
the empty-type call returns the not-found result, discarding the only —
hence last — error produced; (ii) an address blank after trimming is
rejected without the ROAD form ever being attempted, even though the oracle
would have succeeded. -/
theorem vworld_auto_type_fallback_counterexample :
    VWorldGeocodeWithType vworldRoadErrOracle "서울 road" "" = .ok notFoundResult
    ∧ vworldRoadErrOracle "서울 road" "ROAD" =
        .error (.classified (NewClassifiedError .SystemFailure "HTTP request failed"
          (some "connection refused")))
    ∧ VWorldGeocodeWithType vworldOkOracle "   " "" = .ok invalidAddressResult
    ∧ vworldOkOracle "   " "ROAD" = .ok okProviderResult :=
  ⟨rfl, rfl, rfl, rfl⟩

/-- C10: for a non-empty batch of at most 100 addresses, the public client
returns `.ok` with exactly one entry per input, order-aligned; a failed
per-address outcome becomes a `none` entry, a successful one a `some Result`
carrying that outcome's coordinate, provider and address detail. -/
theorem clientGeocodeBatch_spec (ps : List GeocodingProvider) (addrs : List String)
    (h1 : addrs ≠ []) (h2 : addrs.length ≤ 100) :
    (clientGeocodeBatch ps addrs).1 =
        .ok ((GeocodeBatch ps addrs).1.1.Results.map toClientBatchEntry)
    ∧ ((GeocodeBatch ps addrs).1.1.Results.map toClientBatchEntry).length = addrs.length
    ∧ (∀ resp ∈ (GeocodeBatch ps addrs).1.1.Results,
        (resp.Success = false → toClientBatchEntry resp = none)
        ∧ (resp.Success = true → toClientBatchEntry resp =
            some { Latitude := (resp.Coordinate.getD ⟨0, 0⟩).Latitude,
                   Longitude := (resp.Coordinate.getD ⟨0, 0⟩).Longitude,
                   Provider := resp.Provider,
                   AddressDetail := resp.AddressDetail,
                   Attempts := [] }))
    ∧ (∀ i, i < addrs.length →
        (GeocodeBatch ps addrs).1.1.Results.getD i invalidFormatResponse =
          (Geocode (batchRun ps (addrs.take i)).2 (addrs.getD i "") "").1.1) := by
  have hne : ¬ (addrs.length = 0) := fun hh => h1 (List.length_eq_zero.mp hh)
  have h100 : ¬ (100 < addrs.length) := by omega
  refine ⟨?_, ?_, ?_, ?_⟩
  · simp only [clientGeocodeBatch, if_neg hne, if_neg h100]
    rw [geocodeBatch_err_none ps addrs]
  · rw [List.length_map]
    simp only [GeocodeBatch, if_neg hne]
    exact batchRun_length addrs ps
  · intro resp _
    constructor
    · intro hs
      simp [toClientBatchEntry, hs]
    · intro hs
      simp [toClientBatchEntry, hs]
  · intro i hi
    simp only [GeocodeBatch, if_neg hne]
    exact batchRun_getD addrs ps i hi

/-- Witness for C10 at a concrete singleton batch. -/
theorem clientGeocodeBatch_spec_witness :
    (clientGeocodeBatch [mockSuccessProvider] ["서울시 중구"]).1 =
      .ok ((GeocodeBatch [mockSuccessProvider] ["서울시 중구"]).1.1.Results.map
        toClientBatchEntry) :=
  (clientGeocodeBatch_spec [mockSuccessProvider] ["서울시 중구"] (by decide) (by decide)).1

/-- C4: `NewClassifiedError` sets the retriable and fallback flags solely from
the kind, by the fixed table (NotFound/SystemFailure/Timeout/RateLimitExceeded
→ `(true, true)`; Invalid/Unauthorized → `(false, false)`); the message and
cause arguments never influence them. -/
theorem newClassifiedError_flag_table (etype : ErrorType) (message : String)
    (original : Option String) :
    ((NewClassifiedError etype message original).Retriable,
      (NewClassifiedError etype message original).Fallback) =
      (match etype with
        | .NotFound => (true, true)
        | .SystemFailure => (true, true)
        | .Timeout => (true, true)
        | .RateLimitExceeded => (true, true)
        | .Invalid => (false, false)
        | .Unauthorized => (false, false)) := by
  cases etype <;> rfl

/-- C9: `RoundToSixDecimal` computes `round(v * 1e6) / 1e6` and is
idempotent. -/
theorem roundToSixDecimal_idempotent (v : ℚ) :
    RoundToSixDecimal v = (goRound (v * 1000000) : ℚ) / 1000000
    ∧ RoundToSixDecimal (RoundToSixDecimal v) = RoundToSixDecimal v := by
  refine ⟨rfl, ?_⟩
  show (goRound (((goRound (v * 1000000) : ℚ) / 1000000) * 1000000) : ℚ) / 1000000
    = RoundToSixDecimal v
  have h : ((goRound (v * 1000000) : ℚ) / 1000000) * 1000000
      = (goRound (v * 1000000) : ℚ) := by
    field_simp
  rw [h, goRound_intCast]
  rfl

/-- C3: an address whose normalized text fails validation makes `Geocode`
return `success=false`, error `"invalid address format"`, an empty attempt
list, and leaves every provider untouched (none is invoked). -/
theorem geocode_rejects_invalid_address (providers : List GeocodingProvider)
    (address addressType : String)
    (h : IsValidAddress (NormalizeAddress address) = false) :
    Geocode providers address addressType = ((invalidFormatResponse, none), providers)
    ∧ invalidFormatResponse.Success = false
    ∧ invalidFormatResponse.Error = "invalid address format"
    ∧ invalidFormatResponse.Attempts = [] := by
  refine ⟨?_, rfl, rfl, rfl⟩
  simp [Geocode, h]

/-- C7 (amended): the core service entry points (`service.Geocode`,
`service.GeocodeBatch`) never return a non-nil top-level error — failures are
reported inside the outcome; the public `Client.GeocodeBatch` returns a
non-nil error exactly for the over-100 caller-contract violation; but
`Client.Geocode`/`Client.GeocodeWithType` convert a failed outcome into a
non-nil `"geocoding failed: ..."` top-level error. -/
theorem toplevel_error_policy (ps : List GeocodingProvider)
    (address addressType : String) (addrs : List String) :
    (Geocode ps address addressType).1.2 = none
    ∧ (GeocodeBatch ps addrs).1.2 = none
    ∧ (addrs.length = 0 → (clientGeocodeBatch ps addrs).1 = .ok [])
    ∧ (addrs.length ≠ 0 → addrs.length ≤ 100 →
        (clientGeocodeBatch ps addrs).1 =
          .ok ((GeocodeBatch ps addrs).1.1.Results.map toClientBatchEntry))
    ∧ (100 < addrs.length →
        (clientGeocodeBatch ps addrs).1 =
          .error ("too many addresses: maximum 100, got " ++ toString addrs.length))
    ∧ ((Geocode ps address addressType).1.1.Success = false →
        (clientGeocodeWithType ps address addressType).1 =
          .error ("geocoding failed: " ++ (Geocode ps address addressType).1.1.Error)) := by
  refine ⟨geocode_err_none ps address addressType, geocodeBatch_err_none ps addrs,
    ?_, ?_, ?_, ?_⟩
  · intro h0
    simp [clientGeocodeBatch, h0]
  · intro hne hle
    have h100 : ¬ (100 < addrs.length) := by omega
    simp only [clientGeocodeBatch, if_neg hne, if_neg h100]
    rw [geocodeBatch_err_none ps addrs]
  · intro hgt
    have hne : ¬ (addrs.length = 0) := by omega
    simp only [clientGeocodeBatch, if_neg hne, if_pos hgt]
  · intro hfail
    simp only [clientGeocodeWithType]
    rw [geocode_err_none ps address addressType, hfail]
    rfl

/-- Witness for C7 (amended): a single not-found provider; the batch client
returns `.ok`, the single-address client converts the failed outcome into a
top-level error. -/
theorem toplevel_error_policy_witness :
    (clientGeocodeBatch [mockNotFoundProvider] ["서울시 중구"]).1 =
      .ok ((GeocodeBatch [mockNotFoundProvider] ["서울시 중구"]).1.1.Results.map toClientBatchEntry)
    ∧ (clientGeocodeWithType [mockNotFoundProvider] "서울시 중구" "").1 =
      .error ("geocoding failed: " ++ (Geocode [mockNotFoundProvider] "서울시 중구" "").1.1.Error) :=
  ⟨(toplevel_error_policy [mockNotFoundProvider] "서울시 중구" "" ["서울시 중구"]).2.2.2.1
      (by decide) (by decide),
   (toplevel_error_policy [mockNotFoundProvider] "서울시 중구" "" ["서울시 중구"]).2.2.2.2.2
      (by decide)⟩

/-- Counterexample to C7 as stated: the caller-facing `Client.GeocodeWithType`
returns a non-nil top-level error for a plain geocoding failure (all
providers exhausted) — not a caller-input contract violation — while the
service itself had reported the failure inside the outcome with a nil
error. -/
theorem client_error_on_geocoding_failure :
    (clientGeocodeWithType [mockNotFoundProvider] "서울시 중구" "").1 =
      .error "geocoding failed: all providers failed to geocode the address"
    ∧ (Geocode [mockNotFoundProvider] "서울시 중구" "").1.2 = none
    ∧ (Geocode [mockNotFoundProvider] "서울시 중구" "").1.1.Success = false :=
  ⟨rfl, rfl, rfl⟩

/-- Witness for C3 at the concrete too-short address `"ab"`. -/
theorem geocode_rejects_invalid_address_witness :
    IsValidAddress (NormalizeAddress "ab") = false
    ∧ Geocode [mockSuccessProvider] "ab" ""
        = ((invalidFormatResponse, none), [mockSuccessProvider]) :=
  ⟨by decide,
   (geocode_rejects_invalid_address [mockSuccessProvider] "ab" "" (by decide)).1⟩

end KGeocode
